import Mathlib

/-!
Verification development for the MiniMax Agent Chatbot (chatbot.py).
The message-routing and intent-dispatch engine is embedded shallowly:
Python string operations become executable Lean functions on `String`,
the SQLite-backed record store becomes an explicit `DBState` threaded
through the operations, remote HTTP services and subprocesses become
outcome parameters (`HttpOutcome`, `CmdOutcome`) supplied by a `World`.
-/

/-! ## String utilities mirroring the Python primitives used by chatbot.py -/

/-- Boolean test that `pat` is a prefix of `hay` (char lists). -/
def listStartsWith : List Char → List Char → Bool
  | _, [] => true
  | [], _ :: _ => false
  | h :: t, p :: ps => h = p && listStartsWith t ps

/-- Boolean substring test on char lists; embeds Python `pat in hay`. -/
def listContains : List Char → List Char → Bool
  | [], pat => pat.isEmpty
  | h :: t, pat => listStartsWith (h :: t) pat || listContains t pat

/-- Python `pat in s` (substring containment). -/
def strContains (s pat : String) : Bool :=
  listContains s.toList pat.toList

/-- One pass of Python `str.replace`: every non-overlapping occurrence of
`pat` in the first `fuel` characters is replaced by `rep`. -/
def replaceAux (pat rep : List Char) : Nat → List Char → List Char
  | _, [] => []
  | 0, hay => hay
  | fuel + 1, h :: t =>
    if pat ≠ [] && listStartsWith (h :: t) pat then
      rep ++ replaceAux pat rep fuel (List.drop pat.length (h :: t))
    else
      h :: replaceAux pat rep fuel t

/-- Python `s.replace(pat, rep)` for the non-empty literal patterns chatbot.py uses. -/
def strReplace (s pat rep : String) : String :=
  ⟨replaceAux pat.toList rep.toList s.toList.length s.toList⟩

/-- Python `s.strip()` (ASCII whitespace suffices for every literal involved). -/
def strTrim (s : String) : String :=
  ⟨((s.toList.dropWhile Char.isWhitespace).reverse.dropWhile Char.isWhitespace).reverse⟩

/-- Python `s.lower()` (the keyword literals are ASCII). -/
def lowerStr (s : String) : String :=
  ⟨s.toList.map Char.toLower⟩

/-- Python `s.upper()` (applied to timezone abbreviations). -/
def upperStr (s : String) : String :=
  ⟨s.toList.map Char.toUpper⟩

/-- Value of a maximal leading digit run, Python `int` on the matched text. -/
def digitsVal : List Char → Nat → Nat
  | [], acc => acc
  | c :: rest, acc =>
    if c.isDigit then digitsVal rest (acc * 10 + (c.toNat - '0'.toNat)) else acc

/-- Helper for `firstNumber`: scan for the first digit. -/
def firstNumberAux : List Char → Option Nat
  | [] => none
  | c :: rest =>
    if c.isDigit then some (digitsVal (c :: rest) 0) else firstNumberAux rest

/-- Embeds `re.findall(r"\d+", message)` followed by `int(numbers[0])`
(chatbot.py 906-908): the first maximal decimal digit run, if any. -/
def firstNumber (s : String) : Option Nat :=
  firstNumberAux s.toList

/-- Match of the regex `https?://[^\s]+` anchored at the head of `cs`. -/
def urlAt (cs : List Char) : Option (List Char) :=
  if listStartsWith cs "https://".toList then
    let tok := (cs.drop 8).takeWhile (fun ch => !ch.isWhitespace)
    if tok.isEmpty then none else some ("https://".toList ++ tok)
  else if listStartsWith cs "http://".toList then
    let tok := (cs.drop 7).takeWhile (fun ch => !ch.isWhitespace)
    if tok.isEmpty then none else some ("http://".toList ++ tok)
  else none

/-- Helper for `findUrl`: try each start position left to right. -/
def findUrlAux : Nat → List Char → Option (List Char)
  | _, [] => none
  | 0, _ => none
  | fuel + 1, c :: rest =>
    match urlAt (c :: rest) with
    | some tok => some tok
    | none => findUrlAux fuel rest

/-- Embeds `re.findall(r"https?://[^\s]+", message)` taking `urls[0]`
(chatbot.py 1007-1012): the leftmost `http(s)://` token. -/
def findUrl (s : String) : Option String :=
  (findUrlAux s.toList.length s.toList).map (fun cs => ⟨cs⟩)

/-- Split on a separator, Python `s.split(sep)` for non-empty `sep`. -/
def splitOnAux (sep : List Char) : Nat → List Char → List Char → List (List Char)
  | _, acc, [] => [acc.reverse]
  | 0, acc, rest => [acc.reverse ++ rest]
  | fuel + 1, acc, h :: t =>
    if sep ≠ [] && listStartsWith (h :: t) sep then
      acc.reverse :: splitOnAux sep fuel [] (List.drop sep.length (h :: t))
    else
      splitOnAux sep fuel (h :: acc) t

/-- String-level split used to model SQLite parsing of a SET clause. -/
def splitOnStr (s sep : String) : List String :=
  (splitOnAux sep.toList s.toList.length [] s.toList).map (fun cs => ⟨cs⟩)

/-- Join with a separator, Python `sep.join(items)`. -/
def joinSep (sep : String) : List String → String
  | [] => ""
  | [x] => x
  | x :: y :: xs => x ++ sep ++ joinSep sep (y :: xs)

/-! ## Data model: the three record kinds of the Record Store (chatbot.py 39-61, 479-526) -/

/-- Row of the `todos` relation (chatbot.py 490-498). -/
structure TodoRow where
  id : Nat
  title : String
  description : String
  completed : Bool
  priority : String
  created_at : Nat
  updated_at : Nat
deriving DecidableEq

/-- Row of the `chat_messages` relation (chatbot.py 500-506). -/
structure ChatRow where
  id : Nat
  role : String
  content : String
  timestamp : Nat
  metadata : String
deriving DecidableEq

/-- Row of the `agent_actions` relation (chatbot.py 508-515). -/
structure ActionRow where
  id : Nat
  action_type : String
  description : String
  status : String
  result : String
  created_at : Nat
deriving DecidableEq

/-- The SQLite database as explicit state: the three relations, their
auto-increment counters, and a logical clock standing in for
CURRENT_TIMESTAMP / `datetime.now()`. -/
structure DBState where
  todos : List TodoRow
  nextTodoId : Nat
  chats : List ChatRow
  nextChatId : Nat
  actions : List ActionRow
  nextActionId : Nat
  now : Nat
deriving DecidableEq

/-- A freshly initialized database (SQLite AUTOINCREMENT starts at 1). -/
def DBState.empty : DBState := ⟨[], 1, [], 1, [], 1, 0⟩

/-- Pydantic `Todo` model (chatbot.py 39-46). -/
structure Todo where
  id : Option Nat := none
  title : String
  description : String := ""
  completed : Bool := false
  priority : String := "medium"
  created_at : Option Nat := none
  updated_at : Option Nat := none
deriving DecidableEq

/-- Pydantic `ChatMessage` model (chatbot.py 48-53); metadata kept as its
serialized form. -/
structure ChatMessage where
  id : Option Nat := none
  role : String
  content : String
  timestamp : Option Nat := none
  metadata : String := "\x7b\x7d"
deriving DecidableEq

/-- Pydantic `AgentAction` model (chatbot.py 55-61). -/
structure AgentAction where
  id : Option Nat := none
  action_type : String
  description : String
  status : String := "pending"
  result : String := ""
  created_at : Option Nat := none
deriving DecidableEq

/-- Python `str(todo.id)` in the f-strings, where `id` is `Optional[int]`. -/
def optIdStr : Option Nat → String
  | some n => toString n
  | none => "None"

/-! ## TodoManager (chatbot.py 528-615) -/

/-- `Todo(...)` built from a fetched row (chatbot.py 558-566): `row[2] or ""`
and `row[4] or "medium"` coalesce falsy values. -/
def rowToTodo (r : TodoRow) : Todo :=
  { id := some r.id
    title := r.title
    description := r.description
    completed := r.completed
    priority := if r.priority = "" then "medium" else r.priority
    created_at := some r.created_at
    updated_at := some r.updated_at }

/-- Embeds `TodoManager.create_todo` (chatbot.py 532-547): INSERT with the
schema defaults for both timestamps, return the todo carrying the new row id. -/
def TodoManager.create_todo (todo : Todo) (st : DBState) : Todo × DBState :=
  let rid := st.nextTodoId
  let row : TodoRow :=
    ⟨rid, todo.title, todo.description, todo.completed, todo.priority, st.now, st.now⟩
  ({ todo with id := some rid, created_at := some st.now, updated_at := some st.now },
   { st with todos := st.todos ++ [row], nextTodoId := rid + 1, now := st.now + 1 })

/-- Insertion step for `ORDER BY created_at DESC`. -/
def insertDesc : List TodoRow → TodoRow → List TodoRow
  | [], r => [r]
  | x :: xs, r =>
    if x.created_at ≥ r.created_at then x :: insertDesc xs r else r :: x :: xs

/-- `SELECT * FROM todos ORDER BY created_at DESC` result order. -/
def sortByCreatedDesc (l : List TodoRow) : List TodoRow :=
  l.foldl insertDesc []

/-- Embeds `TodoManager.get_todos` (chatbot.py 549-569). -/
def TodoManager.get_todos (st : DBState) : List Todo :=
  (sortByCreatedDesc st.todos).map rowToTodo

/-- Values bound into the dynamic UPDATE (the Python dict values). -/
inductive SqlVal where
  | b (v : Bool)
  | s (v : String)
  | i (v : Int)
deriving DecidableEq

/-- The dynamically built SET clause of `TodoManager.update_todo`
(chatbot.py 576): `", ".join(f"{k} = ?" for k in updates)`. -/
def setClause (updates : List (String × SqlVal)) : String :=
  joinSep ", " (updates.map (fun kv => kv.fst ++ " = ?"))

/-- Identifier characters accepted by SQLite for a plain column name. -/
def isIdentChar (c : Char) : Bool := c.isAlphanum || c = '_'

/-- One `col = expr` item of a SET clause parses iff the column name is a
non-empty identifier and an expression follows. -/
def sqlAssignOk (item : String) : Bool :=
  match splitOnStr item " = " with
  | [col, rhs] => col ≠ "" && col.toList.all isIdentChar && rhs ≠ ""
  | _ => false

/-- SQLite-side syntax check of the full SET fragment: the comma-separated
items must each be a well-formed assignment (an empty item, as produced when
`updates` is empty, is a syntax error). -/
def sqlSetOk (frag : String) : Bool :=
  (splitOnStr frag ", ").all sqlAssignOk

/-- Columns of `todos` that `update_todo` can address. -/
def knownColumn (k : String) : Bool :=
  k = "title" || k = "description" || k = "completed" || k = "priority"

/-- Apply one bound update to a row (typed values only; SQLite would store a
mistyped value verbatim, which no caller in the repository does). -/
def applyCol (r : TodoRow) : String × SqlVal → TodoRow
  | ("title", .s v) => { r with title := v }
  | ("description", .s v) => { r with description := v }
  | ("completed", .b v) => { r with completed := v }
  | ("completed", .i v) => { r with completed := v ≠ 0 }
  | ("priority", .s v) => { r with priority := v }
  | _ => r

/-- Python exceptions that the embedded code can raise. -/
inductive PyErr where
  | attributeError (attr : String)
  | operationalError (msg : String)
deriving DecidableEq

/-- Embeds `TodoManager.update_todo` (chatbot.py 571-604): build the SET
clause from the open `updates` mapping, execute the UPDATE (a malformed
clause or unknown column raises `sqlite3.OperationalError`, discarding the
uncommitted transaction), return `None` on rowcount 0, else re-fetch the row. -/
def TodoManager.update_todo (todo_id : Nat) (updates : List (String × SqlVal))
    (st : DBState) : Except PyErr (Option Todo × DBState) :=
  if sqlSetOk (setClause updates ++ ", updated_at = CURRENT_TIMESTAMP") then
    if updates.all (fun kv => knownColumn kv.fst) then
      match st.todos.find? (fun r => r.id == todo_id) with
      | none => .ok (none, st)
      | some r =>
        let r2 := { updates.foldl applyCol r with updated_at := st.now }
        let todos2 := st.todos.map (fun x => if x.id == todo_id then r2 else x)
        .ok (some (rowToTodo r2), { st with todos := todos2, now := st.now + 1 })
    else .error (.operationalError "no such column")
  else .error (.operationalError "near \x22,\x22: syntax error")

/-- Embeds the `PUT /api/todos/(todo_id)` route (chatbot.py 1104-1106): it
returns `update_todo` directly, so an exception propagates out of the route. -/
def update_todo_route (todo_id : Nat) (updates : List (String × SqlVal))
    (st : DBState) : Except PyErr (Option Todo × DBState) :=
  TodoManager.update_todo todo_id updates st

/-! ## ChatManager (chatbot.py 617-676) -/

/-- Embeds `ChatManager.add_message` (chatbot.py 623-651): INSERT the row,
return the `ChatMessage` carrying the new id and timestamp. -/
def ChatManager.add_message (role content : String) (st : DBState) :
    ChatMessage × DBState :=
  let mid := st.nextChatId
  ({ id := some mid, role := role, content := content, timestamp := some st.now },
   { st with chats := st.chats ++ [⟨mid, role, content, st.now, "\x7b\x7d"⟩],
             nextChatId := mid + 1, now := st.now + 1 })

/-! ## Remote Service Façade (chatbot.py 95-477) -/

/-- JSON values appearing in the small service payloads. -/
inductive JVal where
  | s (v : String)
  | i (v : Int)
  | arr (v : List JVal)
  | obj (v : List (String × JVal))

/-- Dictionary lookup on a parsed JSON object. -/
def jLookup (d : List (String × JVal)) (k : String) : Option JVal :=
  (d.find? (fun kv => kv.fst == k)).map (fun kv => kv.snd)

/-- Rendering of a payload value inside an f-string; structured values are
abbreviated (no code path a claim touches formats one). -/
def JVal.display : JVal → String
  | .s v => v
  | .i v => toString v
  | .arr _ => "[...]"
  | .obj _ => "[object]"

/-- `result.get(key, default)` displayed into an f-string. -/
def jDisplayD (d : List (String × JVal)) (k default : String) : String :=
  match jLookup d k with
  | some v => v.display
  | none => default

/-- Outcome of one HTTP call made by a service client: a response with a
status and parsed JSON body, or a raised transport exception. -/
inductive HttpOutcome where
  | resp (status : Nat) (body : List (String × JVal))
  | exn (msg : String)

/-- The uniform client pattern shared by every MCP client method
(e.g. chatbot.py 100-112): status 200 returns the parsed body, any other
status returns an error marker with the status, and any exception is caught
and returned as an error marker with its description. -/
def mcpClientResult : HttpOutcome → List (String × JVal)
  | .resp status body =>
    if status = 200 then body else [("error", .s ("HTTP " ++ toString status))]
  | .exn e => [("error", .s e)]

/-- Embeds `MCPTimeClient.get_current_time` (chatbot.py 100-112). -/
def MCPTimeClient.get_current_time (o : HttpOutcome) : List (String × JVal) :=
  mcpClientResult o

/-- Embeds `MCPPlaywrightClient.take_screenshot` (chatbot.py 146-158). -/
def MCPPlaywrightClient.take_screenshot (o : HttpOutcome) : List (String × JVal) :=
  mcpClientResult o

/-- Embeds `MCPSequentialThinkingClient.think` (chatbot.py 179-195). -/
def MCPSequentialThinkingClient.think (o : HttpOutcome) : List (String × JVal) :=
  mcpClientResult o

/-- Embeds `MCPDuckDuckGoClient.search` (chatbot.py 220-236). -/
def MCPDuckDuckGoClient.search (o : HttpOutcome) : List (String × JVal) :=
  mcpClientResult o

/-- Embeds `MCPDuckDuckGoClient.instant_answer` (chatbot.py 238-250). -/
def MCPDuckDuckGoClient.instant_answer (o : HttpOutcome) : List (String × JVal) :=
  mcpClientResult o

/-- Embeds `MCPServices.get_current_time` (chatbot.py 400-408). -/
def MCPServices.get_current_time (timezone : String) (o : HttpOutcome) : String :=
  let result := MCPTimeClient.get_current_time o
  match jLookup result "error" with
  | some e => "Time service error: " ++ e.display
  | none =>
    "🕐 Current time: " ++ jDisplayD result "current_time" "Unknown time"
      ++ " (" ++ jDisplayD result "timezone" timezone ++ ")"

/-- Numbered step lines of the thinking response (chatbot.py 421-422). -/
def enumLines (i : Nat) : List JVal → String
  | [] => ""
  | x :: xs => toString i ++ ". " ++ x.display ++ "\n" ++ enumLines (i + 1) xs

/-- Embeds `MCPServices.think_about` (chatbot.py 410-428); a non-list
`steps` payload is outside the modelled scope. -/
def MCPServices.think_about (problem : String) (o : HttpOutcome) : String :=
  let result := MCPSequentialThinkingClient.think o
  match jLookup result "error" with
  | some e => "Thinking service error: " ++ e.display
  | none =>
    let steps := match jLookup result "steps" with
      | some (.arr xs) => xs
      | _ => []
    if steps.isEmpty then "No thinking steps available"
    else
      let response := "🤔 **Thinking about: " ++ problem ++ "**\n\n" ++ enumLines 1 steps
      let conclusion := jDisplayD result "conclusion" ""
      if conclusion ≠ "" then response ++ "\n**Conclusion:** " ++ conclusion else response

/-- A field of one search-result item (chatbot.py 442-444); non-object items
are outside the modelled scope. -/
def itemField (v : JVal) (k default : String) : String :=
  match v with
  | .obj d => jDisplayD d k default
  | _ => default

/-- Per-item lines of the search response (chatbot.py 441-451). -/
def searchLines (i : Nat) : List JVal → String
  | [] => ""
  | item :: rest =>
    let title := itemField item "title" "No title"
    let url := itemField item "url" ""
    let snippet := itemField item "snippet" "No description"
    "**" ++ toString i ++ ". " ++ title ++ "**\n"
      ++ (if url ≠ "" then "   🔗 " ++ url ++ "\n" else "")
      ++ (if snippet ≠ "" then "   📝 " ++ snippet ++ "\n" else "")
      ++ "\n" ++ searchLines (i + 1) rest

/-- Embeds `MCPServices.search_web` (chatbot.py 430-453). -/
def MCPServices.search_web (query : String) (o : HttpOutcome) : String :=
  let result := MCPDuckDuckGoClient.search o
  match jLookup result "error" with
  | some e => "Search service error: " ++ e.display
  | none =>
    let results := match jLookup result "results" with
      | some (.arr xs) => xs
      | _ => []
    if results.isEmpty then "No results found for \x27" ++ query ++ "\x27"
    else "🔍 **Search results for: " ++ query ++ "**\n\n" ++ searchLines 1 (results.take 5)

/-- Embeds `MCPServices.get_instant_answer` (chatbot.py 455-465). -/
def MCPServices.get_instant_answer (query : String) (o : HttpOutcome) : String :=
  let result := MCPDuckDuckGoClient.instant_answer o
  match jLookup result "error" with
  | some e => "Search service error: " ++ e.display
  | none =>
    let answer := jDisplayD result "answer" ""
    if answer = "" then "No instant answer found for \x27" ++ query ++ "\x27"
    else "💡 **Instant Answer:** " ++ answer

/-- Embeds `MCPServices.take_web_screenshot` (chatbot.py 467-477). -/
def MCPServices.take_web_screenshot (url : String) (o : HttpOutcome) : String :=
  let result := MCPPlaywrightClient.take_screenshot o
  match jLookup result "error" with
  | some e => "Screenshot service error: " ++ e.display
  | none =>
    let path := jDisplayD result "screenshot_path" ""
    if path ≠ "" then "📸 Screenshot saved: " ++ path
    else "Screenshot taken but path not available"

/-! ## XFCEController (chatbot.py 805-835) -/

/-- `PORTS` configuration dict (chatbot.py 31-37). -/
def PORTS : List (String × Nat) :=
  [("web", 5173), ("api", 8000), ("sandbox_api", 8080), ("vnc", 5900), ("chrome_cdp", 9222)]

/-- Lookup in `PORTS`. -/
def portOf (k : String) : Nat :=
  ((PORTS.find? (fun kv => kv.fst == k)).map (fun kv => kv.snd)).getD 0

/-- Embeds `XFCEController.take_screenshot` (chatbot.py 825-831): the body is
a pure f-string, so the `except` branch is dead. -/
def XFCEController.take_screenshot : String :=
  "Screenshot saved to /tmp/screenshot.png"

/-- Embeds `XFCEController.get_vnc_connection` (chatbot.py 833-835). -/
def XFCEController.get_vnc_connection : String :=
  "VNC server running on localhost:" ++ toString (portOf "vnc")

/-! ## AgentExecutor (chatbot.py 678-803) -/

/-- Outcome of `asyncio.create_subprocess_shell` + `communicate`: captured
stdout, stderr and exit code, or an exception raised while spawning. -/
inductive CmdOutcome where
  | ok (stdout stderr : String) (exitCode : Int)
  | exn (msg : String)
deriving DecidableEq

/-- Outcome of the file-system access made by `_execute_file_op`. -/
inductive FsOutcome where
  | ok (data : String)
  | exn (msg : String)
deriving DecidableEq

/-- The external effects available to one background action body. -/
structure ActionWorld where
  cmd : CmdOutcome := .ok "" "" 0
  fs : FsOutcome := .ok ""
deriving DecidableEq

/-- `params.get(key, "")` on the params dict of an action. -/
def getParam (params : List (String × String)) (k : String) : String :=
  ((params.find? (fun kv => kv.fst == k)).map (fun kv => kv.snd)).getD ""

/-- Embeds `AgentExecutor._execute_command` (chatbot.py 729-748): format the
command, any non-empty stdout, any non-empty stderr and the exit code; any
exception is caught inside this function and rendered as a result string. -/
def AgentExecutor.execute_command (command : String) (o : CmdOutcome) : String :=
  match o with
  | .ok stdout stderr exitCode =>
    "Command: " ++ command ++ "\n"
      ++ (if stdout ≠ "" then "Output:\n" ++ stdout ++ "\n" else "")
      ++ (if stderr ≠ "" then "Error:\n" ++ stderr ++ "\n" else "")
      ++ "Exit code: " ++ toString exitCode
  | .exn e => "Command execution failed: " ++ e

/-- Embeds `AgentExecutor._execute_file_op` (chatbot.py 750-770). -/
def AgentExecutor.execute_file_op (params : List (String × String)) (o : FsOutcome) : String :=
  let operation := getParam params "operation"
  let file_path := getParam params "file_path"
  if operation = "read" then
    match o with
    | .ok data => data
    | .exn e => "File operation failed: " ++ e
  else if operation = "write" then
    match o with
    | .ok _ => "File written successfully: " ++ file_path
    | .exn e => "File operation failed: " ++ e
  else if operation = "append" then
    match o with
    | .ok _ => "Content appended to: " ++ file_path
    | .exn e => "File operation failed: " ++ e
  else "Unknown file operation: " ++ operation

/-- Embeds `AgentExecutor._execute_web_search` (chatbot.py 772-775): a
canned placeholder, not wired to the search façade. -/
def AgentExecutor.execute_web_search (query : String) : String :=
  "Search results for \x27" ++ query ++ "\x27:\n1. Result 1\n2. Result 2\n3. Result 3"

/-- Embeds `AgentExecutor._execute_xfce_action` (chatbot.py 777-788). -/
def AgentExecutor.execute_xfce_action (params : List (String × String)) : String :=
  let action := getParam params "action"
  if action = "screenshot" then "Screenshot taken and saved to /tmp/screenshot.png"
  else if action = "open_terminal" then "Terminal opened in XFCE desktop"
  else if action = "list_applications" then
    "XFCE Applications:\n- Firefox\n- Thunar\n- Terminal\n- Text Editor"
  else "XFCE action \x27" ++ action ++ "\x27 executed"

/-- The body dispatch of `_execute_action_async` (chatbot.py 712-721). -/
def actionBody (action_type : String) (params : List (String × String))
    (w : ActionWorld) : String :=
  if action_type = "command" then AgentExecutor.execute_command (getParam params "command") w.cmd
  else if action_type = "file_operation" then AgentExecutor.execute_file_op params w.fs
  else if action_type = "web_search" then AgentExecutor.execute_web_search (getParam params "query")
  else if action_type = "xfce_action" then AgentExecutor.execute_xfce_action params
  else "Unknown action type: " ++ action_type

/-- Embeds `AgentExecutor._execute_action_async` (chatbot.py 710-727) as the
single (status, result) update it issues: the `except` branch writing
"failed" fires only when the body itself raises, and every body above
catches internally and returns a string, so the update carries "completed". -/
def executeActionAsyncUpdate (action_type : String) (params : List (String × String))
    (w : ActionWorld) : String × String :=
  ("completed", actionBody action_type params w)

/-- Embeds `AgentExecutor.execute_action` (chatbot.py 684-708): INSERT the
action with status "running" and return immediately with its identifier; the
body runs afterwards as a background task. -/
def AgentExecutor.execute_action (action_type description : String) (st : DBState) :
    AgentAction × DBState :=
  let aid := st.nextActionId
  ({ id := some aid, action_type := action_type, description := description,
     status := "running", result := "", created_at := some st.now },
   { st with actions := st.actions ++ [⟨aid, action_type, description, "running", "", st.now⟩],
             nextActionId := aid + 1, now := st.now + 1 })

/-- The per-row effect of the UPDATE in `_update_action_status`. -/
def updActionRow (aid : Nat) (status result : String) (r : ActionRow) : ActionRow :=
  if r.id == aid then { r with status := status, result := result } else r

/-- Embeds `AgentExecutor._update_action_status` (chatbot.py 790-803). -/
def AgentExecutor.update_action_status (aid : Nat) (status result : String)
    (st : DBState) : DBState :=
  { st with actions := st.actions.map (updActionRow aid status result), now := st.now + 1 }

/-- The full lifecycle of one dispatched action: the handle and state after
`execute_action`, then the state after the background task's single status
update. -/
def runAction (action_type description : String) (params : List (String × String))
    (w : ActionWorld) (st : DBState) : AgentAction × DBState × DBState :=
  let h := AgentExecutor.execute_action action_type description st
  let u := executeActionAsyncUpdate action_type params w
  (h.1, h.2, AgentExecutor.update_action_status st.nextActionId u.1 u.2 h.2)

/-- Ordering of the action status state machine
(pending → running → terminal). -/
def statusRank (s : String) : Nat :=
  if s = "pending" then 0 else if s = "running" then 1 else 2

/-! ## ChatBot handlers and process_message (chatbot.py 837-1042) -/

/-- External outcomes available to one `process_message` call. -/
structure World where
  timeResp : HttpOutcome := .exn "unreachable"
  thinkResp : HttpOutcome := .exn "unreachable"
  searchResp : HttpOutcome := .exn "unreachable"
  screenshotResp : HttpOutcome := .exn "unreachable"
  instantResp : HttpOutcome := .exn "unreachable"
  xfceStartOk : Bool := true

/-- One invocation of a Remote Service Façade operation, recorded so that
theorems can state which remote operation a message triggered. -/
inductive RemoteCall where
  | time (timezone : String)
  | think (problem : String)
  | webScreenshot (url : String)
  | instant (query : String)
  | searchWeb (query : String)
deriving DecidableEq

/-- Result of one handler / of `process_message`: the response or the
exception it raises, the database state (committed effects survive a later
exception), and the façade operations invoked. -/
structure StepOut where
  out : Except PyErr String
  db : DBState
  calls : List RemoteCall

/-- Per-todo line of the list rendering (chatbot.py 897-899). -/
def todoLines : List Todo → String
  | [] => ""
  | t :: ts =>
    (if t.completed then "✅" else "⏳") ++ " " ++ t.title
      ++ " (ID: " ++ optIdStr t.id ++ ")\n" ++ todoLines ts

/-- Embeds `ChatBot._handle_todo_command` (chatbot.py 880-917). The
sub-action substring tests run on the original `message`, not its lowered
form. -/
def handleTodoCommand (message : String) (st : DBState) : StepOut :=
  if strContains message "add" || strContains message "create" then
    let title := strTrim (strReplace (strReplace message "add todo" "") "create todo" "")
    if title = "" then
      ⟨.ok "Please provide a todo title. Example: \x27add todo buy groceries\x27", st, []⟩
    else
      let c := TodoManager.create_todo { title := title } st
      ⟨.ok ("✅ Todo created: \x27" ++ c.1.title ++ "\x27 (ID: " ++ optIdStr c.1.id ++ ")"),
       c.2, []⟩
  else if strContains message "list" || strContains message "show" then
    let todos := TodoManager.get_todos st
    if todos.isEmpty then
      ⟨.ok "No todos found. Create one with \x27add todo [title]\x27", st, []⟩
    else
      ⟨.ok ("📝 Your todos:\n" ++ todoLines todos), st, []⟩
  else if strContains message "complete" || strContains message "done" then
    match firstNumber message with
    | some todo_id =>
      match TodoManager.update_todo todo_id [("completed", .b true)] st with
      | .ok (some updated, st2) => ⟨.ok ("✅ Todo completed: " ++ updated.title), st2, []⟩
      | .ok (none, st2) => ⟨.ok ("❌ Todo not found with ID: " ++ toString todo_id), st2, []⟩
      | .error e => ⟨.error e, st, []⟩
    | none => ⟨.ok "Please specify a todo ID. Example: \x27complete todo 1\x27", st, []⟩
  else ⟨.ok "Todo commands: add todo [title], list todos, complete todo [id]", st, []⟩

/-- Embeds `ChatBot._handle_agent_command` (chatbot.py 919-932). -/
def handleAgentCommand (message : String) (st : DBState) : StepOut :=
  if strContains message "command" then
    let command := strTrim (strReplace (strReplace message "execute command" "") "run command" "")
    if command = "" then
      ⟨.ok "Please provide a command. Example: \x27execute command ls -la\x27", st, []⟩
    else
      let a := AgentExecutor.execute_action "command" ("Execute: " ++ command) st
      ⟨.ok ("🔄 Action started: " ++ a.1.description ++ " (ID: " ++ optIdStr a.1.id ++ ")"),
       a.2, []⟩
  else if strContains message "file" then
    ⟨.ok "File operation commands: read file [path], write file [path] [content], append file [path] [content]", st, []⟩
  else ⟨.ok "Agent commands: execute command [command], file operations", st, []⟩

/-- Embeds `ChatBot._handle_xfce_command` (chatbot.py 934-950). -/
def handleXfceCommand (message : String) (w : World) (st : DBState) : StepOut :=
  if strContains message "screenshot" then
    ⟨.ok ("🖥️ " ++ XFCEController.take_screenshot), st, []⟩
  else if strContains message "vnc" || strContains message "connect" then
    ⟨.ok ("🖥️ " ++ XFCEController.get_vnc_connection ++ "\nUse VNC client to connect"), st, []⟩
  else if strContains message "start" || strContains message "launch" then
    if w.xfceStartOk then ⟨.ok "🖥️ XFCE desktop session started", st, []⟩
    else ⟨.ok "❌ Failed to start XFCE session", st, []⟩
  else ⟨.ok "XFCE commands: screenshot, start desktop, show vnc connection", st, []⟩

/-- Embeds `ChatBot._handle_web_command` (chatbot.py 952-961). -/
def handleWebCommand (message : String) (st : DBState) : StepOut :=
  if strContains message "search" then
    let query := strTrim (strReplace message "search" "")
    if query = "" then
      ⟨.ok "Please provide a search query. Example: \x27search python tutorials\x27", st, []⟩
    else
      let a := AgentExecutor.execute_action "web_search" ("Search: " ++ query) st
      ⟨.ok ("🔍 Search started: " ++ query ++ " (ID: " ++ optIdStr a.1.id ++ ")"), a.2, []⟩
  else ⟨.ok "Web commands: search [query]", st, []⟩

/-- Attribute names bound on `ChatBot` by `__init__` (chatbot.py 838-845). -/
def chatBotAttrs : List String :=
  ["db", "todo_manager", "chat_manager", "agent_executor", "xfce_controller",
   "mcp_services", "clients"]

/-- The `self.vnc_port` attribute access inside `_handle_general_chat`
(chatbot.py 968): `ChatBot.__init__` never assigns `vnc_port`, so the lookup
raises `AttributeError` while the responses dict is being built. -/
def selfVncPort : Except PyErr Nat :=
  if "vnc_port" ∈ chatBotAttrs then .ok (portOf "vnc")
  else .error (.attributeError "vnc_port")

/-- Embeds `ChatBot._handle_general_chat` (chatbot.py 963-976): the
responses dict literal is evaluated eagerly, so the `self.vnc_port` lookup
in the "status" entry runs on every call before any key matching. -/
def handleGeneralChat (message : String) : Except PyErr String := do
  let vnc ← selfVncPort
  let responses : List (String × String) :=
    [("hello", "Hello! I\x27m your AI assistant. I can help with todos, execute commands, manage XFCE desktop, and more."),
     ("help", "I can help you with:\n📝 Todo management: \x27add todo buy groceries\x27\n🔄 Commands: \x27execute command ls -la\x27\n🖥️ Desktop: \x27screenshot\x27, \x27start desktop\x27\n🔍 Web: \x27search python tutorials\x27"),
     ("status", "Service status:\n🖥️ XFCE VNC: localhost:" ++ toString vnc
        ++ "\n🌐 Web Frontend: http://localhost:" ++ toString (portOf "web")
        ++ "\n🔗 API: http://localhost:" ++ toString (portOf "api"))]
  let lower := lowerStr message
  match responses.find? (fun kv => strContains lower kv.fst) with
  | some kv => pure kv.snd
  | none =>
    pure ("I understood: \x27" ++ message
      ++ "\x27. Try asking for help with specific tasks like todos, commands, or desktop operations.")

/-- The leading-question-phrase strip of the instant-answer branch
(chatbot.py 1021-1025). -/
def stripLeadingQuestion (message : String) : String :=
  match ["what is", "how many", "when did", "where is", "who is"].find?
      (fun p => listStartsWith (lowerStr message).toList p.toList) with
  | some p => strTrim ⟨message.toList.drop p.toList.length⟩
  | none => message

/-- Embeds `ChatBot._handle_mcp_command` (chatbot.py 978-1042). -/
def handleMcpCommand (message : String) (w : World) (st : DBState) : StepOut :=
  let lower := lowerStr message
  if ["time", "date", "clock"].any (fun k => strContains lower k) then
    let timezone :=
      match ["utc", "est", "pst", "gmt", "jst", "cet"].find? (fun t => strContains lower t) with
      | some t => upperStr t
      | none => "UTC"
    ⟨.ok (MCPServices.get_current_time timezone w.timeResp), st, [.time timezone]⟩
  else if ["think", "analyze", "reason", "reasoning", "solve"].any (fun k => strContains lower k) then
    let p0 := strTrim (strReplace (strReplace (strReplace message "think about" "") "analyze" "") "reason about" "")
    let problem := if p0 = "" then "the current situation" else p0
    ⟨.ok (MCPServices.think_about problem w.thinkResp), st, [.think problem]⟩
  else if strContains lower "screenshot"
      && (strContains lower "web" || strContains lower "page" || strContains lower "website") then
    match findUrl message with
    | some url => ⟨.ok (MCPServices.take_web_screenshot url w.screenshotResp), st, [.webScreenshot url]⟩
    | none =>
      ⟨.ok "Please provide a valid URL for screenshot. Example: \x27screenshot website https://example.com\x27", st, []⟩
  else if ["what is", "how many", "when did", "where is", "who is"].any (fun k => strContains lower k) then
    let query := stripLeadingQuestion message
    if query ≠ "" then ⟨.ok (MCPServices.get_instant_answer query w.instantResp), st, [.instant query]⟩
    else ⟨.ok "Please provide a clear question. Example: \x27what is python\x27", st, []⟩
  else if strContains lower "search" then
    let query := strTrim (strReplace (strReplace message "search" "") "search for" "")
    if query = "" then
      ⟨.ok "Please provide a search query. Example: \x27search python tutorials\x27", st, []⟩
    else ⟨.ok (MCPServices.search_web query w.searchResp), st, [.searchWeb query]⟩
  else
    ⟨.ok "MCP commands: time [timezone], think about [problem], screenshot web [url], what is [question], search [query]", st, []⟩

/-- Embeds `ChatBot.process_message` (chatbot.py 847-878): persist the user
message, then route on the lowered text through the fixed keyword tiers. -/
def processMessage (message : String) (w : World) (st : DBState) : StepOut :=
  let st1 := (ChatManager.add_message "user" message st).2
  let lower := lowerStr message
  if strContains lower "todo" || strContains lower "task" then
    handleTodoCommand message st1
  else if strContains lower "execute" || strContains lower "run" then
    handleAgentCommand message st1
  else if strContains lower "desktop" || strContains lower "screenshot" || strContains lower "xfce" then
    handleXfceCommand message w st1
  else if strContains lower "search" || strContains lower "browse" then
    handleWebCommand message st1
  else if ["time", "current time", "date", "think", "analyze", "reason", "screenshot"].any
      (fun c => strContains lower c) then
    handleMcpCommand message w st1
  else
    ⟨handleGeneralChat message, st1, []⟩

/-- A concrete world used by the concrete-input theorems. -/
def w0 : World := {}

/-- A concrete action world used by the concrete-input theorems. -/
def aw0 : ActionWorld := {}

/-- States whose stored actions all predate the auto-increment counter; every
state reachable from `DBState.empty` through the embedded operations has this
shape. -/
def DBState.actionsFresh (st : DBState) : Prop :=
  ∀ r ∈ st.actions, r.id < st.nextActionId

/-! ## Support lemmas -/

theorem listStartsWith_append (b c : List Char) : listStartsWith (b ++ c) b = true := by
  induction b with
  | nil => cases c <;> rfl
  | cons x xs ih => simp [listStartsWith, ih]

theorem listContains_nil (l : List Char) : listContains l [] = true := by
  cases l <;> simp [listContains, listStartsWith, List.isEmpty]

theorem listContains_cons_of (x : Char) (l p : List Char)
    (h : listContains l p = true) : listContains (x :: l) p = true := by
  simp [listContains, h]

theorem listContains_front (b c : List Char) : listContains (b ++ c) b = true := by
  cases b with
  | nil => simpa using listContains_nil c
  | cons x xs =>
    show listContains (x :: (xs ++ c)) (x :: xs) = true
    simp [listContains]
    left
    simpa using listStartsWith_append (x :: xs) c

theorem listContains_append_left (a p rest : List Char)
    (h : listContains rest p = true) : listContains (a ++ rest) p = true := by
  induction a with
  | nil => simpa using h
  | cons x xs ih => simpa using listContains_cons_of x (xs ++ rest) p ih

theorem listContains_self (b : List Char) : listContains b b = true := by
  have := listContains_front b []
  simpa using this

theorem strToList_append (s t : String) : (s ++ t).toList = s.toList ++ t.toList := rfl

theorem execute_command_contains_cmd (command stdout stderr : String) (exitCode : Int) :
    strContains (AgentExecutor.execute_command command (.ok stdout stderr exitCode))
      command = true := by
  simp only [AgentExecutor.execute_command, strContains, strToList_append, List.append_assoc]
  exact listContains_append_left _ _ _ (listContains_front _ _)

theorem execute_command_contains_stdout (command stdout stderr : String) (exitCode : Int) :
    strContains (AgentExecutor.execute_command command (.ok stdout stderr exitCode))
      stdout = true := by
  by_cases h : stdout = ""
  · subst h
    exact listContains_nil _
  · simp only [AgentExecutor.execute_command, if_pos h, strContains, strToList_append,
      List.append_assoc]
    exact listContains_append_left _ _ _ (listContains_append_left _ _ _
      (listContains_append_left _ _ _ (listContains_append_left _ _ _
        (listContains_front _ _))))

theorem execute_command_contains_stderr (command stdout stderr : String) (exitCode : Int) :
    strContains (AgentExecutor.execute_command command (.ok stdout stderr exitCode))
      stderr = true := by
  by_cases h : stderr = ""
  · subst h
    exact listContains_nil _
  · simp only [AgentExecutor.execute_command, if_pos h, strContains, strToList_append,
      List.append_assoc]
    exact listContains_append_left _ _ _ (listContains_append_left _ _ _
      (listContains_append_left _ _ _ (listContains_append_left _ _ _
        (listContains_append_left _ _ _ (listContains_front _ _)))))

theorem execute_command_contains_exit (command stdout stderr : String) (exitCode : Int) :
    strContains (AgentExecutor.execute_command command (.ok stdout stderr exitCode))
      (toString exitCode) = true := by
  simp only [AgentExecutor.execute_command, strContains, strToList_append, List.append_assoc]
  exact listContains_append_left _ _ _ (listContains_append_left _ _ _
    (listContains_append_left _ _ _ (listContains_append_left _ _ _
      (listContains_append_left _ _ _ (listContains_append_left _ _ _
        (listContains_self _))))))

theorem map_updActionRow_eq (aid : Nat) (s res : String) (l : List ActionRow)
    (h : ∀ r ∈ l, r.id ≠ aid) : l.map (updActionRow aid s res) = l := by
  induction l with
  | nil => rfl
  | cons x xs ih =>
    have hx : (x.id == aid) = false := by
      simpa using h x (by simp)
    simp [updActionRow, hx, ih (fun r hr => h r (by simp [hr]))]

theorem update_todo_chats (n : Nat) (ups : List (String × SqlVal)) (st : DBState)
    (r : Option Todo) (st2 : DBState)
    (h : TodoManager.update_todo n ups st = .ok (r, st2)) : st2.chats = st.chats := by
  unfold TodoManager.update_todo at h
  split at h
  · split at h
    · split at h
      · cases h; rfl
      · cases h; rfl
    · cases h
  · cases h

theorem handleTodoCommand_chats (m : String) (st : DBState) :
    (handleTodoCommand m st).db.chats = st.chats := by
  unfold handleTodoCommand
  dsimp only
  split
  · split
    · rfl
    · simp [TodoManager.create_todo]
  · split
    · split <;> rfl
    · split
      · split
        · split
          · rename_i heq; exact update_todo_chats _ _ _ _ _ heq
          · rename_i heq; exact update_todo_chats _ _ _ _ _ heq
          · rfl
        · rfl
      · rfl

theorem handleAgentCommand_chats (m : String) (st : DBState) :
    (handleAgentCommand m st).db.chats = st.chats := by
  unfold handleAgentCommand
  dsimp only
  split
  · split
    · rfl
    · simp [AgentExecutor.execute_action]
  · split <;> rfl

theorem handleXfceCommand_chats (m : String) (w : World) (st : DBState) :
    (handleXfceCommand m w st).db.chats = st.chats := by
  unfold handleXfceCommand
  split
  · rfl
  · split
    · rfl
    · split
      · split <;> rfl
      · rfl

theorem handleWebCommand_chats (m : String) (st : DBState) :
    (handleWebCommand m st).db.chats = st.chats := by
  unfold handleWebCommand
  dsimp only
  split
  · split
    · rfl
    · simp [AgentExecutor.execute_action]
  · rfl

theorem handleMcpCommand_chats (m : String) (w : World) (st : DBState) :
    (handleMcpCommand m w st).db.chats = st.chats := by
  unfold handleMcpCommand
  dsimp only
  split
  · rfl
  · split
    · rfl
    · split
      · split <;> rfl
      · split
        · split <;> rfl
        · split
          · split <;> rfl
          · rfl

/-- C1: a message containing "screenshot" together with "website" and a
well-formed URL, and no higher-tier keyword, is routed by `processMessage`
to the desktop-control (XFCE) screenshot path, producing the desktop stub
response with no Remote Service Façade call — even though the URL is
extractable and the remote web-screenshot branch condition holds. -/
theorem C1_screenshot_website_routes_to_desktop :
    (processMessage "screenshot website https://example.com" w0 DBState.empty).out
      = .ok "🖥️ Screenshot saved to /tmp/screenshot.png"
    ∧ (processMessage "screenshot website https://example.com" w0 DBState.empty).calls = []
    ∧ findUrl "screenshot website https://example.com" = some "https://example.com"
    ∧ (strContains (lowerStr "screenshot website https://example.com") "screenshot"
        && (strContains (lowerStr "screenshot website https://example.com") "web"
            || strContains (lowerStr "screenshot website https://example.com") "page"
            || strContains (lowerStr "screenshot website https://example.com") "website")) = true :=
  ⟨rfl, rfl, rfl, rfl⟩

/-- C2 counterexample: `processMessage` on "list todos" persists exactly one
chat message, with role "user" — no matching "assistant" record is stored,
so the inbound/outbound pair of the claim is not persisted. -/
theorem C2_counterexample :
    (processMessage "list todos" w0 DBState.empty).out
      = .ok "No todos found. Create one with \x27add todo [title]\x27"
    ∧ ((processMessage "list todos" w0 DBState.empty).db.chats.map (fun c => c.role))
      = ["user"] :=
  ⟨rfl, rfl⟩

/-- C2 amended: for every submitted message, `processMessage` persists
exactly one new chat record — the inbound text under role "user" — before
returning; the outbound response is never stored. -/
theorem C2_amended (msg : String) (w : World) (st : DBState) :
    (processMessage msg w st).db.chats
      = st.chats ++ [⟨st.nextChatId, "user", msg, st.now, "\x7b\x7d"⟩] := by
  unfold processMessage
  dsimp only
  split
  · rw [handleTodoCommand_chats]; rfl
  · split
    · rw [handleAgentCommand_chats]; rfl
    · split
      · rw [handleXfceCommand_chats]; rfl
      · split
        · rw [handleWebCommand_chats]; rfl
        · split
          · rw [handleMcpCommand_chats]; rfl
          · rfl

/-- C3: the fallback (general chat) handler does not succeed: on "hello",
which matches no keyword tier, `processMessage` raises `AttributeError`
because building the responses dict evaluates `self.vnc_port`, an attribute
`ChatBot.__init__` never assigns. -/
theorem C3_fallback_attributeError :
    (processMessage "hello" w0 DBState.empty).out
      = .error (.attributeError "vnc_port")
    ∧ handleGeneralChat "hello" = .error (.attributeError "vnc_port") :=
  ⟨rfl, rfl⟩

/-- C4: dispatching an action durably records it with status "running" and
returns its identifier at once; the background task then updates the stored
status exactly once, to "completed" or "failed", so the status sequence is
monotone through running → terminal and never regresses. -/
theorem C4_action_status_monotone (ty desc : String) (params : List (String × String))
    (w : ActionWorld) (st : DBState) (h : st.actionsFresh) :
    (runAction ty desc params w st).1.status = "running"
    ∧ (runAction ty desc params w st).1.id = some st.nextActionId
    ∧ (runAction ty desc params w st).2.1.actions
        = st.actions ++ [⟨st.nextActionId, ty, desc, "running", "", st.now⟩]
    ∧ (runAction ty desc params w st).2.2.actions
        = st.actions ++ [⟨st.nextActionId, ty, desc,
            (executeActionAsyncUpdate ty params w).1,
            (executeActionAsyncUpdate ty params w).2, st.now⟩]
    ∧ ((executeActionAsyncUpdate ty params w).1 = "completed"
        ∨ (executeActionAsyncUpdate ty params w).1 = "failed")
    ∧ statusRank "running" ≤ statusRank (executeActionAsyncUpdate ty params w).1
    ∧ (executeActionAsyncUpdate ty params w).1 ≠ "running" := by
  refine ⟨rfl, rfl, rfl, ?_, Or.inl rfl, ?_, ?_⟩
  · simp only [runAction, AgentExecutor.execute_action, AgentExecutor.update_action_status,
      executeActionAsyncUpdate]
    rw [List.map_append, map_updActionRow_eq _ _ _ _ (fun r hr => Nat.ne_of_lt (h r hr))]
    simp [updActionRow]
  · show statusRank "running" ≤ statusRank "completed"
    decide
  · show "completed" ≠ "running"
    decide

/-- C4 witness: the freshness hypothesis holds of the empty store, and the
lifecycle of a dispatched shell command evaluates as the theorem states. -/
theorem C4_witness :
    DBState.empty.actionsFresh
    ∧ ((runAction "command" "Execute: ls" [("command", "ls")] aw0 DBState.empty).1.status = "running"
      ∧ (runAction "command" "Execute: ls" [("command", "ls")] aw0 DBState.empty).1.id = some 1
      ∧ (runAction "command" "Execute: ls" [("command", "ls")] aw0 DBState.empty).2.1.actions
          = [⟨1, "command", "Execute: ls", "running", "", 0⟩]
      ∧ (runAction "command" "Execute: ls" [("command", "ls")] aw0 DBState.empty).2.2.actions
          = [⟨1, "command", "Execute: ls", "completed", "Command: ls\nExit code: 0", 0⟩]
      ∧ ("completed" = "completed" ∨ "completed" = "failed")
      ∧ statusRank "running" ≤ statusRank "completed"
      ∧ "completed" ≠ "running") := by
  have h : DBState.empty.actionsFresh := by
    intro r hr
    cases hr
  exact ⟨h, C4_action_status_monotone "command" "Execute: ls" [("command", "ls")] aw0 DBState.empty h⟩

/-- C5 counterexample: an exception while spawning the subprocess is caught
inside `_execute_command` and rendered into the result string, so the single
status update records "completed", not the "failed" status the claim
asserts. -/
theorem C5_counterexample :
    executeActionAsyncUpdate "command" [("command", "definitely-missing-binary")]
        { cmd := .exn "[Errno 2] No such file or directory" }
      = ("completed", "Command execution failed: [Errno 2] No such file or directory")
    ∧ (executeActionAsyncUpdate "command" [("command", "definitely-missing-binary")]
        { cmd := .exn "[Errno 2] No such file or directory" }).1 ≠ "failed" :=
  ⟨rfl, by decide⟩

/-- C5 amended: a dispatched "command" action captures stdout, stderr and
the exit code into the stored result text and never remains "running"; a
subprocess failure is caught and recorded as a terminal "completed" status
whose result carries the error description — the "failed" status would
require the body itself to raise, which `_execute_command` never does. -/
theorem C5_amended (command stdout stderr e : String) (exitCode : Int) :
    executeActionAsyncUpdate "command" [("command", command)]
        { cmd := .ok stdout stderr exitCode }
      = ("completed", AgentExecutor.execute_command command (.ok stdout stderr exitCode))
    ∧ strContains (AgentExecutor.execute_command command (.ok stdout stderr exitCode))
        command = true
    ∧ strContains (AgentExecutor.execute_command command (.ok stdout stderr exitCode))
        stdout = true
    ∧ strContains (AgentExecutor.execute_command command (.ok stdout stderr exitCode))
        stderr = true
    ∧ strContains (AgentExecutor.execute_command command (.ok stdout stderr exitCode))
        (toString exitCode) = true
    ∧ executeActionAsyncUpdate "command" [("command", command)] { cmd := .exn e }
      = ("completed", "Command execution failed: " ++ e)
    ∧ (∀ aw : ActionWorld,
        (executeActionAsyncUpdate "command" [("command", command)] aw).1 ≠ "running") :=
  ⟨rfl,
   execute_command_contains_cmd command stdout stderr exitCode,
   execute_command_contains_stdout command stdout stderr exitCode,
   execute_command_contains_stderr command stdout stderr exitCode,
   execute_command_contains_exit command stdout stderr exitCode,
   rfl,
   fun _ => by show ("completed" : String) ≠ "running"; decide⟩

/-- C6: on each extraction-failure path — todo/add with an empty title
remainder, todo/complete with no decimal digits, agent/command with an empty
command remainder, web-search with an empty query remainder — the handler
returns the corresponding guidance string without raising and leaves the
store untouched. -/
theorem C6_parameter_guidance (msg : String) (st : DBState) :
    ((strContains msg "add" || strContains msg "create") = true →
      strTrim (strReplace (strReplace msg "add todo" "") "create todo" "") = "" →
      (handleTodoCommand msg st).out
        = .ok "Please provide a todo title. Example: \x27add todo buy groceries\x27"
      ∧ (handleTodoCommand msg st).db = st)
    ∧ (strContains msg "add" = false → strContains msg "create" = false →
       strContains msg "list" = false → strContains msg "show" = false →
       (strContains msg "complete" || strContains msg "done") = true →
       firstNumber msg = none →
       (handleTodoCommand msg st).out
         = .ok "Please specify a todo ID. Example: \x27complete todo 1\x27"
       ∧ (handleTodoCommand msg st).db = st)
    ∧ (strContains msg "command" = true →
       strTrim (strReplace (strReplace msg "execute command" "") "run command" "") = "" →
       (handleAgentCommand msg st).out
         = .ok "Please provide a command. Example: \x27execute command ls -la\x27"
       ∧ (handleAgentCommand msg st).db = st)
    ∧ (strContains msg "search" = true →
       strTrim (strReplace msg "search" "") = "" →
       (handleWebCommand msg st).out
         = .ok "Please provide a search query. Example: \x27search python tutorials\x27"
       ∧ (handleWebCommand msg st).db = st) := by
  refine ⟨fun h1 h2 => ?_, fun h1 h2 h3 h4 h5 h6 => ?_, fun h1 h2 => ?_, fun h1 h2 => ?_⟩
  · constructor <;> simp [handleTodoCommand, h1, h2]
  · constructor <;> simp [handleTodoCommand, h1, h2, h3, h4, h5, h6]
  · constructor <;> simp [handleAgentCommand, h1, h2]
  · constructor <;> simp [handleWebCommand, h1, h2]

/-- C6 witness: the four guidance paths evaluated at the minimal failing
inputs. -/
theorem C6_witness :
    ((handleTodoCommand "add todo" DBState.empty).out
        = .ok "Please provide a todo title. Example: \x27add todo buy groceries\x27"
      ∧ (handleTodoCommand "add todo" DBState.empty).db = DBState.empty)
    ∧ ((handleTodoCommand "complete todo" DBState.empty).out
        = .ok "Please specify a todo ID. Example: \x27complete todo 1\x27"
      ∧ (handleTodoCommand "complete todo" DBState.empty).db = DBState.empty)
    ∧ ((handleAgentCommand "execute command" DBState.empty).out
        = .ok "Please provide a command. Example: \x27execute command ls -la\x27"
      ∧ (handleAgentCommand "execute command" DBState.empty).db = DBState.empty)
    ∧ ((handleWebCommand "search" DBState.empty).out
        = .ok "Please provide a search query. Example: \x27search python tutorials\x27"
      ∧ (handleWebCommand "search" DBState.empty).db = DBState.empty) :=
  ⟨(C6_parameter_guidance "add todo" DBState.empty).1 (by decide) (by decide),
   (C6_parameter_guidance "complete todo" DBState.empty).2.1 (by decide) (by decide)
     (by decide) (by decide) (by decide) (by decide),
   (C6_parameter_guidance "execute command" DBState.empty).2.2.1 (by decide) (by decide),
   (C6_parameter_guidance "search" DBState.empty).2.2.2 (by decide) (by decide)⟩

/-- C7 counterexample: "add todo buy milk" takes the add sub-action path and
creates a todo, while its upper-cased form "ADD TODO BUY MILK" — routed to
the same todo handler via the case-folded tier test — misses every
case-sensitive sub-action test and falls through to the usage string with no
todo created. -/
theorem C7_counterexample :
    (processMessage "add todo buy milk" w0 DBState.empty).out
      = .ok "✅ Todo created: \x27buy milk\x27 (ID: 1)"
    ∧ (processMessage "add todo buy milk" w0 DBState.empty).db.todos
      = [⟨1, "buy milk", "", false, "medium", 1, 1⟩]
    ∧ (processMessage "ADD TODO BUY MILK" w0 DBState.empty).out
      = .ok "Todo commands: add todo [title], list todos, complete todo [id]"
    ∧ (processMessage "ADD TODO BUY MILK" w0 DBState.empty).db.todos = [] :=
  ⟨rfl, rfl, rfl, rfl⟩

/-- C7 amended: only the top-level tier matching runs on the case-folded
text; the sub-action tests of the todo handler run on the original text, so
a message whose lowered form selects the todo tier but whose raw text
contains none of the sub-action keywords yields the todo usage string and
creates nothing. -/
theorem C7_amended (msg : String) (w : World) (st : DBState)
    (h1 : (strContains (lowerStr msg) "todo" || strContains (lowerStr msg) "task") = true)
    (h2 : strContains msg "add" = false) (h3 : strContains msg "create" = false)
    (h4 : strContains msg "list" = false) (h5 : strContains msg "show" = false)
    (h6 : strContains msg "complete" = false) (h7 : strContains msg "done" = false) :
    (processMessage msg w st).out
      = .ok "Todo commands: add todo [title], list todos, complete todo [id]"
    ∧ (processMessage msg w st).db.todos = st.todos := by
  constructor <;>
    simp [processMessage, handleTodoCommand, ChatManager.add_message,
      h1, h2, h3, h4, h5, h6, h7]

/-- C7 witness: the amended statement evaluated at "ADD TODO BUY MILK". -/
theorem C7_witness :
    ((strContains (lowerStr "ADD TODO BUY MILK") "todo"
        || strContains (lowerStr "ADD TODO BUY MILK") "task") = true)
    ∧ ((processMessage "ADD TODO BUY MILK" w0 DBState.empty).out
        = .ok "Todo commands: add todo [title], list todos, complete todo [id]"
      ∧ (processMessage "ADD TODO BUY MILK" w0 DBState.empty).db.todos = []) :=
  ⟨by decide,
   C7_amended "ADD TODO BUY MILK" w0 DBState.empty (by decide) (by decide) (by decide)
     (by decide) (by decide) (by decide) (by decide)⟩

/-- C8: a current-time query returns "Time service error: " plus the failure
description on a transport failure, the same string with "HTTP status" on a
non-200 response, and on HTTP 200 formats the parsed body fields into the
display string; the façade is a total function, so no exception escapes. -/
theorem C8_time_service_errors :
    (∀ tz e, MCPServices.get_current_time tz (.exn e) = "Time service error: " ++ e)
    ∧ (∀ tz (s : Nat) body, s ≠ 200 →
        MCPServices.get_current_time tz (.resp s body)
          = "Time service error: HTTP " ++ toString s)
    ∧ (∀ tz body, jLookup body "error" = none →
        MCPServices.get_current_time tz (.resp 200 body)
          = "🕐 Current time: " ++ jDisplayD body "current_time" "Unknown time"
              ++ " (" ++ jDisplayD body "timezone" tz ++ ")") := by
  refine ⟨fun tz e => rfl, fun tz s body hs => ?_, fun tz body hb => ?_⟩
  · simp only [MCPServices.get_current_time, MCPTimeClient.get_current_time, mcpClientResult,
      if_neg hs, jLookup, List.find?, JVal.display]
    rfl
  · simp [MCPServices.get_current_time, MCPTimeClient.get_current_time, mcpClientResult, hb]

/-- C8 witness: the three cases evaluated at a connection failure, an HTTP
503, and a successful body. -/
theorem C8_witness :
    MCPServices.get_current_time "UTC" (.exn "Cannot connect to host localhost:8001")
      = "Time service error: Cannot connect to host localhost:8001"
    ∧ ((503 : Nat) ≠ 200
      ∧ MCPServices.get_current_time "UTC" (.resp 503 [])
        = "Time service error: HTTP 503")
    ∧ (jLookup [("current_time", .s "2024-05-04T10:00:00"), ("timezone", .s "UTC")] "error" = none
      ∧ MCPServices.get_current_time "UTC"
          (.resp 200 [("current_time", .s "2024-05-04T10:00:00"), ("timezone", .s "UTC")])
        = "🕐 Current time: 2024-05-04T10:00:00 (UTC)") :=
  ⟨C8_time_service_errors.1 "UTC" "Cannot connect to host localhost:8001",
   ⟨by decide,
    C8_time_service_errors.2.1 "UTC" 503 [] (by decide)⟩,
   ⟨rfl,
    C8_time_service_errors.2.2 "UTC"
      [("current_time", .s "2024-05-04T10:00:00"), ("timezone", .s "UTC")] rfl⟩⟩

/-- C9: creating a todo titled "buy milk" with defaulted fields in the empty
store and then listing yields exactly one entry with that title,
completed false, priority "medium", and equal created/updated timestamps. -/
theorem C9_todo_roundtrip :
    TodoManager.get_todos (TodoManager.create_todo { title := "buy milk" } DBState.empty).2
      = [{ id := some 1, title := "buy milk", description := "", completed := false,
           priority := "medium", created_at := some 0, updated_at := some 0 }]
    ∧ ((TodoManager.get_todos
          (TodoManager.create_todo { title := "buy milk" } DBState.empty).2).all
        (fun t => !t.completed && (t.priority == "medium")
          && (t.created_at == t.updated_at))) = true :=
  ⟨rfl, rfl⟩

/-- C10: `update_todo` with an empty updates mapping builds a malformed SET
clause and raises `sqlite3.OperationalError` for every identifier and store
state, instead of returning the todo unchanged or None; the PUT route
returns `update_todo` directly, so the error propagates out of the
endpoint. -/
theorem C10_empty_update_raises (todo_id : Nat) (st : DBState) :
    TodoManager.update_todo todo_id [] st
      = .error (.operationalError "near \x22,\x22: syntax error")
    ∧ update_todo_route todo_id [] st
      = .error (.operationalError "near \x22,\x22: syntax error") := by
  have hc : sqlSetOk (setClause [] ++ ", updated_at = CURRENT_TIMESTAMP") = false := by
    decide
  constructor <;> simp [update_todo_route, TodoManager.update_todo, hc]
